import Mathlib

/-!
The coreDS synchronisation glue of `AFirstPersonShootCPPCharacter`

Shallow embedding of the three coreDS call sites of
`Source/FirstPersonShootCPP/FirstPersonShootCPPCharacter.cpp`
(`OnFire`, `TickActor`, `Destroyed`).

* Numbers (`float` components of `FVector`/`FRotator`, `double` arguments of the
  coordinate conversions) are values of `Scalar`: an exact rational, one of the two
  infinities, or NaN.  Rounding of finite results is not represented; the special
  values propagate as in IEEE-754.
* Every call that leaves the translation unit is recorded, in program order, in a
  trace of `Effect`s.  The three calls on `Engine` are the messages to the sink.
* `UCoreDSCoordinateConversion::EnuToEcef`, `HeadingPitchRollToEuler`,
  `FRotator::RotateVector`, `FMathd::DegToRad` and the `UcoreDSSettings` default
  object are not defined in the source file; they are the fields of `CoreDS`.
-/

namespace CoreUnreal

/-! ## Numbers -/

/-- A floating-point value: finite (carrying its exact value), an infinity, or NaN. -/
inductive Scalar where
  | finite (q : ℚ)
  | posInf
  | negInf
  | nan
  deriving DecidableEq

namespace Scalar

/-- Engine test `FMath::IsFinite`: neither NaN nor an infinity. -/
def isFinite : Scalar → Bool
  | finite _ => true
  | _ => false

/-- Sign of an infinite product or quotient: `true` is negative. -/
def infOfSign (neg : Bool) : Scalar := if neg then negInf else posInf

/-- Floating-point product (rounding of finite results left out). -/
def mul : Scalar → Scalar → Scalar
  | nan, _ => nan
  | _, nan => nan
  | finite a, finite b => finite (a * b)
  | finite a, posInf => if a = 0 then nan else infOfSign (decide (a < 0))
  | finite a, negInf => if a = 0 then nan else infOfSign (decide (0 < a))
  | posInf, finite b => if b = 0 then nan else infOfSign (decide (b < 0))
  | negInf, finite b => if b = 0 then nan else infOfSign (decide (0 < b))
  | posInf, posInf => posInf
  | posInf, negInf => negInf
  | negInf, posInf => negInf
  | negInf, negInf => posInf

/-- Floating-point sum (rounding of finite results left out). -/
def add : Scalar → Scalar → Scalar
  | nan, _ => nan
  | _, nan => nan
  | finite a, finite b => finite (a + b)
  | finite _, posInf => posInf
  | finite _, negInf => negInf
  | posInf, finite _ => posInf
  | negInf, finite _ => negInf
  | posInf, posInf => posInf
  | negInf, negInf => negInf
  | posInf, negInf => nan
  | negInf, posInf => nan

/-- Floating-point quotient (rounding of finite results left out; a zero has no sign
here, so a non-zero finite value over zero is taken as the infinity of its own sign). -/
def div : Scalar → Scalar → Scalar
  | nan, _ => nan
  | _, nan => nan
  | finite a, finite b =>
      if b = 0 then (if a = 0 then nan else infOfSign (decide (a < 0))) else finite (a / b)
  | finite _, posInf => finite 0
  | finite _, negInf => finite 0
  | posInf, finite b => infOfSign (decide (b < 0))
  | negInf, finite b => infOfSign (decide (0 ≤ b))
  | posInf, posInf => nan
  | posInf, negInf => nan
  | negInf, posInf => nan
  | negInf, negInf => nan

instance : Mul Scalar := ⟨mul⟩
instance : Add Scalar := ⟨add⟩
instance : Div Scalar := ⟨div⟩
instance (n : Nat) : OfNat Scalar n := ⟨finite n⟩

end Scalar

/-! ## Engine value types -/

/-- Engine type `FVector`: three components. -/
structure FVector where
  X : Scalar
  Y : Scalar
  Z : Scalar
  deriving DecidableEq

/-- Engine type `FRotator`: pitch, yaw and roll in degrees. -/
structure FRotator where
  Pitch : Scalar
  Yaw : Scalar
  Roll : Scalar
  deriving DecidableEq

/-- Modelled from the spec: `FVector::ContainsNaN` is engine code that is not part of
the source file.  The spec (4.2, 7) has the update skipped when the position holds a
non-finite value (NaN/Inf); the engine tests each component with `FMath::IsFinite`. -/
def FVector.ContainsNaN (v : FVector) : Bool :=
  !v.X.isFinite || !v.Y.isFinite || !v.Z.isFinite

/-- Modelled from the spec: `FRotator::ContainsNaN` is engine code that is not part of
the source file.  The spec (4.2, 7) has the update skipped when the orientation holds a
non-finite value (NaN/Inf); the engine tests each component with `FMath::IsFinite`. -/
def FRotator.ContainsNaN (r : FRotator) : Bool :=
  !r.Pitch.isFinite || !r.Yaw.isFinite || !r.Roll.isFinite

/-- Engine operator `FVector::operator+`: component-wise sum. -/
def FVector.add (v w : FVector) : FVector :=
  ⟨v.X + w.X, v.Y + w.Y, v.Z + w.Z⟩

instance : Add FVector := ⟨FVector.add⟩

/-- Plugin type `FKeyVariantPair(key, value)`: one entry of a message payload. -/
structure FKeyVariantPair where
  key : String
  value : Scalar
  deriving DecidableEq

/-- Plugin type `UcoreDSSettings`: the configured reference origin, latitude and longitude in
degrees, altitude in meters. -/
structure UcoreDSSettings where
  ReferenceLatitude : Scalar
  ReferenceLongitude : Scalar
  ReferenceAltitude : Scalar
  deriving DecidableEq

/-! ## Collaborators that are not defined in the source file -/

/-- What the character code uses and does not define. -/
structure CoreDS where
  /-- Function `UCoreDSCoordinateConversion::EnuToEcef(e, n, u, lat, lon, alt, x, y, z)`; the
  three reference outputs are returned as a triple `(x, y, z)`. -/
  EnuToEcef : Scalar → Scalar → Scalar → Scalar → Scalar → Scalar → Scalar × Scalar × Scalar
  /-- Function `UCoreDSCoordinateConversion::HeadingPitchRollToEuler(lat, lon, yaw, pitch, roll,
  o1, o2, o3)`; the three reference outputs are returned in argument order. -/
  HeadingPitchRollToEuler :
    Scalar → Scalar → Scalar → Scalar → Scalar → Scalar × Scalar × Scalar
  /-- Function `FRotator::RotateVector`. -/
  RotateVector : FRotator → FVector → FVector
  /-- Constant `FMathd::DegToRad`. -/
  DegToRad : Scalar
  /-- Value of `GetDefault<UcoreDSSettings>()`. -/
  Settings : UcoreDSSettings

/-! ## The character -/

/-- The part of the actor's state that `OnFire`, `TickActor` and `Destroyed` read.
A name (`FName`) is represented by the string it compares as. -/
structure Character where
  /-- Member `AActor::Tags`. -/
  Tags : List String
  /-- Value of `GetFName().ToString()`. -/
  Name : String
  /-- Value of `GetActorLocation()`. -/
  ActorLocation : FVector
  /-- Value of `GetControlRotation()`. -/
  ControlRotation : FRotator
  /-- Value of `FirstPersonCameraComponent->GetComponentRotation()`. -/
  CameraRotation : FRotator
  /-- Member `FP_MuzzleLocation`: `none` for a null pointer, else `GetComponentLocation()`. -/
  FP_MuzzleLocation : Option FVector
  /-- Member `GunOffset`. -/
  GunOffset : FVector
  /-- Member `ProjectileClass`: `none` for `NULL`. -/
  ProjectileClass : Option String
  /-- Value of `GetWorld() != NULL`. -/
  World : Bool
  /-- Member `FireSound`: `none` for `NULL`. -/
  FireSound : Option String
  /-- Member `FireAnimation`: `none` for `NULL`. -/
  FireAnimation : Option String
  /-- Value of `Mesh1P->GetAnimInstance() != NULL`. -/
  AnimInstance : Bool

/-- Engine function `AActor::ActorHasTag`: whether the tag is among `Tags`. -/
def Character.ActorHasTag (a : Character) (tag : String) : Bool :=
  a.Tags.contains tag

/-- Modelled from the spec: the macro `TCHAR_TO_UTF8` is engine code that is not part of
the source file.  It re-encodes the characters of the string; the spec (4.2) has the
removal keyed by the identity string itself. -/
def TCHAR_TO_UTF8 (s : String) : String := s

/-- One call leaving the translation unit.  `sendMessage`, `updateObject` and
`removeObject` are the member functions of `Engine` (the `UcoreDSEngine` subsystem bound
in `BeginPlay`), with their arguments in call order. -/
inductive Effect where
  | SuperTickActor (DeltaTime : Scalar)
  | SpawnActor (cls : String) (SpawnLocation : FVector) (SpawnRotation : FRotator)
  | PlaySoundAtLocation (sound : String) (location : FVector)
  | Montage_Play (montage : String) (rate : Scalar)
  | EnuToEcef (e n u lat lon alt : Scalar)
  | HeadingPitchRollToEuler (lat lon yaw pitch roll : Scalar)
  | sendMessage (name : String) (values : List FKeyVariantPair)
  | updateObject (arg1 : String) (arg2 : String) (values : List FKeyVariantPair)
  | removeObject (name : String)
  deriving DecidableEq

/-- Whether an effect is a call on `Engine`, that is, a message to the sink. -/
def Effect.isSink : Effect → Bool
  | .sendMessage _ _ => true
  | .updateObject _ _ _ => true
  | .removeObject _ => true
  | _ => false

/-- The messages to the sink within a trace, in order. -/
def sinkMessages (t : List Effect) : List Effect := t.filter Effect.isSink

/-- Whether an effect is a call of one of the two coordinate conversions. -/
def Effect.isConversion : Effect → Bool
  | .EnuToEcef _ _ _ _ _ _ => true
  | .HeadingPitchRollToEuler _ _ _ _ _ => true
  | _ => false

/-- The coordinate-conversion calls within a trace, in order. -/
def conversionCalls (t : List Effect) : List Effect := t.filter Effect.isConversion

/-- The position a shot leaves from (source lines 120 and 162):
`((FP_MuzzleLocation != nullptr) ? FP_MuzzleLocation->GetComponentLocation()
 : GetActorLocation()) + SpawnRotation.RotateVector(GunOffset)`. -/
def firingLocation (E : CoreDS) (a : Character) : FVector :=
  (match a.FP_MuzzleLocation with
    | some loc => loc
    | none => a.ActorLocation) + E.RotateVector a.ControlRotation a.GunOffset

/-- Embeds `AFirstPersonShootCPPCharacter::OnFire` (source lines 110-175). -/
def OnFire (E : CoreDS) (a : Character) : List Effect :=
  -- try and fire a projectile
  let spawned : List Effect :=
    match a.ProjectileClass with
    | some cls =>
        if a.World then [Effect.SpawnActor cls (firingLocation E a) a.ControlRotation] else []
    | none => []
  -- try and play the sound if specified
  let sound : List Effect :=
    match a.FireSound with
    | some s => [Effect.PlaySoundAtLocation s a.ActorLocation]
    | none => []
  -- try and play a firing animation if specified
  let anim : List Effect :=
    match a.FireAnimation with
    | some m => if a.AnimInstance then [Effect.Montage_Play m 1] else []
    | none => []
  -- if the object was dynamically created, just return
  if a.ActorHasTag "coreDSCreated" then
    spawned ++ sound ++ anim
  else
    let ActorLocation := firingLocation E a
    let lSettings := E.Settings
    let (x, y, z) :=
      E.EnuToEcef (ActorLocation.X * 100) (ActorLocation.Y * 100) (ActorLocation.Z * 100)
        lSettings.ReferenceLatitude lSettings.ReferenceLongitude lSettings.ReferenceAltitude
    let lValues : List FKeyVariantPair :=
      [⟨"Location.x", x⟩, ⟨"Location.y", y⟩, ⟨"Location.z", z⟩]
    spawned ++ sound ++ anim ++
      [Effect.EnuToEcef (ActorLocation.X * 100) (ActorLocation.Y * 100) (ActorLocation.Z * 100)
          lSettings.ReferenceLatitude lSettings.ReferenceLongitude lSettings.ReferenceAltitude,
        Effect.sendMessage "ShotFired" lValues]

/-- Embeds `AFirstPersonShootCPPCharacter::TickActor` (source lines 285-334). -/
def TickActor (E : CoreDS) (a : Character) (DeltaTime : Scalar) : List Effect :=
  let super : List Effect := [Effect.SuperTickActor DeltaTime]
  -- if the object was dynamically created, just return
  if a.ActorHasTag "coreDSCreated" then
    super
  else
    let ActorLocation := a.ActorLocation
    let ActorRotation := a.CameraRotation
    -- only send update if all fields are valid
    if !ActorLocation.ContainsNaN && !ActorRotation.ContainsNaN then
      let lSettings := E.Settings
      let (x, y, z) :=
        E.EnuToEcef (ActorLocation.X * 100) (ActorLocation.Y * 100) (ActorLocation.Z * 100)
          lSettings.ReferenceLatitude lSettings.ReferenceLongitude lSettings.ReferenceAltitude
      let (psi, theta, phi) :=
        E.HeadingPitchRollToEuler
          (lSettings.ReferenceLatitude * E.DegToRad)
          (lSettings.ReferenceLongitude * E.DegToRad)
          (ActorRotation.Yaw * E.DegToRad) (ActorRotation.Pitch * E.DegToRad)
          (ActorRotation.Roll * E.DegToRad)
      let lValues : List FKeyVariantPair :=
        [⟨"Location.x", x⟩, ⟨"Location.y", y⟩, ⟨"Location.z", z⟩,
         ⟨"Orientation.pitch", psi⟩, ⟨"Orientation.yaw", phi⟩, ⟨"Orientation.roll", theta⟩]
      super ++
        [Effect.EnuToEcef (ActorLocation.X * 100) (ActorLocation.Y * 100)
            (ActorLocation.Z * 100)
            lSettings.ReferenceLatitude lSettings.ReferenceLongitude
            lSettings.ReferenceAltitude,
          Effect.HeadingPitchRollToEuler
            (lSettings.ReferenceLatitude * E.DegToRad)
            (lSettings.ReferenceLongitude * E.DegToRad)
            (ActorRotation.Yaw * E.DegToRad) (ActorRotation.Pitch * E.DegToRad)
            (ActorRotation.Roll * E.DegToRad),
          Effect.updateObject a.Name "Gun" lValues]
    else
      super

/-- Embeds `AFirstPersonShootCPPCharacter::Destroyed` (source lines 336-344). -/
def Destroyed (a : Character) : List Effect :=
  if !a.ActorHasTag "coreDSCreated" then
    [Effect.removeObject (TCHAR_TO_UTF8 a.Name)]
  else
    []

/-! ## Sample data -/

/-- A stand-in for the conversions: `EnuToEcef` returns its three offsets,
`HeadingPitchRollToEuler` returns its three angles (yaw, pitch, roll), `RotateVector`
leaves the vector as it is, and the reference origin is (34, -118, 100). -/
def sampleCoreDS : CoreDS where
  EnuToEcef := fun e n u _ _ _ => (e, n, u)
  HeadingPitchRollToEuler := fun _ _ yaw pitch roll => (yaw, pitch, roll)
  RotateVector := fun _ v => v
  DegToRad := Scalar.finite (314159265358979 / 18000000000000000)
  Settings := ⟨Scalar.finite 34, Scalar.finite (-118), Scalar.finite 100⟩

/-- A locally created actor standing at (1000, 0, 0) with camera yaw 90, pitch 10, roll 0. -/
def sampleLocal : Character where
  Tags := []
  Name := "Gun_1"
  ActorLocation := ⟨1000, 0, 0⟩
  ControlRotation := ⟨0, 0, 0⟩
  CameraRotation := ⟨10, 90, 0⟩
  FP_MuzzleLocation := some ⟨1000, 0, 0⟩
  GunOffset := ⟨0, 0, 0⟩
  ProjectileClass := some "Projectile"
  World := true
  FireSound := some "Sound"
  FireAnimation := some "Montage"
  AnimInstance := true

/-- The same actor, created by the external system. -/
def sampleRemote : Character := { sampleLocal with Tags := ["coreDSCreated"] }

/-- A locally created actor with nothing to spawn or play and a NaN muzzle position. -/
def sampleBare : Character :=
  { sampleLocal with
    ActorLocation := ⟨Scalar.nan, 0, 0⟩
    FP_MuzzleLocation := some ⟨Scalar.nan, 0, 0⟩
    ProjectileClass := none
    World := false
    FireSound := none
    FireAnimation := none
    AnimInstance := false }

/-! ## The position conversion as the specification describes it -/

/-- Modelled from the spec: `UCoreDSCoordinateConversion::EnuToEcef` is declared in
`coreDS_BPCoordinateConversion.h` and is not part of the source file.  The spec (4.1)
has it compute the ECEF coordinates of the reference origin by the standard
geodetic-to-ECEF formula of an Earth ellipsoid, rotate the local East-North-Up offset into
the ECEF frame by the rotation matrix of the reference latitude and longitude, and add the
two.  The arithmetic is that of a field `K`; the ellipsoid (semi-major axis `a`, squared
eccentricity `e2`), the degrees-to-radians factor and the functions `sin`, `cos`, `sqrt`
are arguments. -/
def EnuToEcefSpec {K : Type} [Field K] (sin cos sqrt : K → K) (degToRad a e2 : K)
    (x y z refLat refLon refAlt : K) : K × K × K :=
  let lat := refLat * degToRad
  let lon := refLon * degToRad
  -- ECEF coordinates of the reference origin
  let N := a / sqrt (1 - e2 * (sin lat * sin lat))
  let x0 := (N + refAlt) * cos lat * cos lon
  let y0 := (N + refAlt) * cos lat * sin lon
  let z0 := (N * (1 - e2) + refAlt) * sin lat
  -- the East-North-Up offset rotated into the ECEF frame
  let dx := -sin lon * x - sin lat * cos lon * y + cos lat * cos lon * z
  let dy := cos lon * x - sin lat * sin lon * y + cos lat * sin lon * z
  let dz := cos lat * y + sin lat * z
  (x0 + dx, y0 + dy, z0 + dz)

/-! ## Arithmetic on finite values -/

/-- Product of two finite values. -/
theorem Scalar.finite_mul_finite (a b : ℚ) :
    Scalar.finite a * Scalar.finite b = Scalar.finite (a * b) := rfl

/-- Sum of two finite values. -/
theorem Scalar.finite_add_finite (a b : ℚ) :
    Scalar.finite a + Scalar.finite b = Scalar.finite (a + b) := rfl

/-- Quotient of two finite values, the divisor not zero. -/
theorem Scalar.finite_div_finite (a b : ℚ) (hb : b ≠ 0) :
    Scalar.finite a / Scalar.finite b = Scalar.finite (a / b) := by
  show Scalar.div (Scalar.finite a) (Scalar.finite b) = Scalar.finite (a / b)
  simp [Scalar.div, hb]

/-- A numeral is the finite value of that number. -/
theorem Scalar.ofNat_eq_finite (n : Nat) : (OfNat.ofNat n : Scalar) = Scalar.finite n := rfl

/-- The sum of two vectors, by components. -/
theorem FVector.add_def (v w : FVector) : v + w = ⟨v.X + w.X, v.Y + w.Y, v.Z + w.Z⟩ := rfl

/-! ## The traces of the two guarded paths -/

/-- The calls `OnFire` makes before it looks at the tag contain no message to the sink
and no coordinate conversion. -/
theorem OnFire_untagged_trace (E : CoreDS) (a : Character)
    (htag : a.ActorHasTag "coreDSCreated" = false) :
    ∃ pre : List Effect, sinkMessages pre = [] ∧ conversionCalls pre = [] ∧
      OnFire E a = pre ++
        [Effect.EnuToEcef ((firingLocation E a).X * 100) ((firingLocation E a).Y * 100)
            ((firingLocation E a).Z * 100) E.Settings.ReferenceLatitude
            E.Settings.ReferenceLongitude E.Settings.ReferenceAltitude,
          Effect.sendMessage "ShotFired"
            [⟨"Location.x", (E.EnuToEcef ((firingLocation E a).X * 100)
                ((firingLocation E a).Y * 100) ((firingLocation E a).Z * 100)
                E.Settings.ReferenceLatitude E.Settings.ReferenceLongitude
                E.Settings.ReferenceAltitude).1⟩,
             ⟨"Location.y", (E.EnuToEcef ((firingLocation E a).X * 100)
                ((firingLocation E a).Y * 100) ((firingLocation E a).Z * 100)
                E.Settings.ReferenceLatitude E.Settings.ReferenceLongitude
                E.Settings.ReferenceAltitude).2.1⟩,
             ⟨"Location.z", (E.EnuToEcef ((firingLocation E a).X * 100)
                ((firingLocation E a).Y * 100) ((firingLocation E a).Z * 100)
                E.Settings.ReferenceLatitude E.Settings.ReferenceLongitude
                E.Settings.ReferenceAltitude).2.2⟩]] := by
  refine ⟨(match a.ProjectileClass with
      | some cls =>
          if a.World then [Effect.SpawnActor cls (firingLocation E a) a.ControlRotation]
          else []
      | none => []) ++
    (match a.FireSound with
      | some s => [Effect.PlaySoundAtLocation s a.ActorLocation]
      | none => []) ++
    (match a.FireAnimation with
      | some m => if a.AnimInstance then [Effect.Montage_Play m 1] else []
      | none => []), ?_, ?_, ?_⟩
  · cases a.ProjectileClass <;> cases a.FireSound <;> cases a.FireAnimation <;>
      cases a.World <;> cases a.AnimInstance <;> simp [sinkMessages, Effect.isSink]
  · cases a.ProjectileClass <;> cases a.FireSound <;> cases a.FireAnimation <;>
      cases a.World <;> cases a.AnimInstance <;> simp [conversionCalls, Effect.isConversion]
  · simp [OnFire, htag]

/-- The trace of `TickActor` when both guards let the update through. -/
theorem TickActor_untagged_trace (E : CoreDS) (a : Character) (DeltaTime : Scalar)
    (htag : a.ActorHasTag "coreDSCreated" = false)
    (hloc : a.ActorLocation.ContainsNaN = false)
    (hrot : a.CameraRotation.ContainsNaN = false)
    (x y z psi theta phi : Scalar)
    (hxyz : E.EnuToEcef (a.ActorLocation.X * 100) (a.ActorLocation.Y * 100)
      (a.ActorLocation.Z * 100) E.Settings.ReferenceLatitude E.Settings.ReferenceLongitude
      E.Settings.ReferenceAltitude = (x, y, z))
    (heul : E.HeadingPitchRollToEuler (E.Settings.ReferenceLatitude * E.DegToRad)
      (E.Settings.ReferenceLongitude * E.DegToRad) (a.CameraRotation.Yaw * E.DegToRad)
      (a.CameraRotation.Pitch * E.DegToRad) (a.CameraRotation.Roll * E.DegToRad)
      = (psi, theta, phi)) :
    TickActor E a DeltaTime =
      [Effect.SuperTickActor DeltaTime,
       Effect.EnuToEcef (a.ActorLocation.X * 100) (a.ActorLocation.Y * 100)
        (a.ActorLocation.Z * 100) E.Settings.ReferenceLatitude E.Settings.ReferenceLongitude
        E.Settings.ReferenceAltitude,
       Effect.HeadingPitchRollToEuler (E.Settings.ReferenceLatitude * E.DegToRad)
        (E.Settings.ReferenceLongitude * E.DegToRad) (a.CameraRotation.Yaw * E.DegToRad)
        (a.CameraRotation.Pitch * E.DegToRad) (a.CameraRotation.Roll * E.DegToRad),
       Effect.updateObject a.Name "Gun"
        [⟨"Location.x", x⟩, ⟨"Location.y", y⟩, ⟨"Location.z", z⟩,
         ⟨"Orientation.pitch", psi⟩, ⟨"Orientation.yaw", phi⟩,
         ⟨"Orientation.roll", theta⟩]] := by
  simp [TickActor, htag, hloc, hrot, hxyz, heul]

/-- The trace of `TickActor` at the locally created sample actor. -/
theorem TickActor_sampleLocal :
    TickActor sampleCoreDS sampleLocal 1 =
      [Effect.SuperTickActor 1,
       Effect.EnuToEcef 100000 0 0 34 (Scalar.finite (-118)) 100,
       Effect.HeadingPitchRollToEuler (34 * sampleCoreDS.DegToRad)
        (Scalar.finite (-118) * sampleCoreDS.DegToRad) (90 * sampleCoreDS.DegToRad)
        (10 * sampleCoreDS.DegToRad) (0 * sampleCoreDS.DegToRad),
       Effect.updateObject "Gun_1" "Gun"
        [⟨"Location.x", 100000⟩, ⟨"Location.y", 0⟩, ⟨"Location.z", 0⟩,
         ⟨"Orientation.pitch", 90 * sampleCoreDS.DegToRad⟩,
         ⟨"Orientation.yaw", 0 * sampleCoreDS.DegToRad⟩,
         ⟨"Orientation.roll", 10 * sampleCoreDS.DegToRad⟩]] := by
  rw [TickActor_untagged_trace sampleCoreDS sampleLocal 1 (by decide) (by decide) (by decide)
    _ _ _ _ _ _ rfl rfl]
  simp [sampleLocal, sampleCoreDS, Scalar.ofNat_eq_finite, Scalar.finite_mul_finite]
  norm_num

/-! ## Ownership tag -/

/-- C1: an actor carrying the tag "coreDSCreated" sends nothing to the sink from
`TickActor`, `OnFire` or `Destroyed`, whatever its other fields and the settings are. -/
theorem tagged_actor_emits_nothing (E : CoreDS) (a : Character) (DeltaTime : Scalar)
    (h : a.ActorHasTag "coreDSCreated" = true) :
    sinkMessages (TickActor E a DeltaTime) = [] ∧
    sinkMessages (OnFire E a) = [] ∧
    sinkMessages (Destroyed a) = [] := by
  refine ⟨?_, ?_, ?_⟩
  · simp [TickActor, h, sinkMessages, Effect.isSink]
  · simp only [OnFire, h, if_true, sinkMessages]
    cases a.ProjectileClass <;> cases a.FireSound <;> cases a.FireAnimation <;>
      cases a.World <;> cases a.AnimInstance <;> simp [Effect.isSink]
  · simp [Destroyed, h, sinkMessages]

/-- Witness of C1 at the externally created sample actor. -/
theorem tagged_actor_emits_nothing_witness :
    sampleRemote.ActorHasTag "coreDSCreated" = true ∧
    sinkMessages (TickActor sampleCoreDS sampleRemote 1) = [] ∧
    sinkMessages (OnFire sampleCoreDS sampleRemote) = [] ∧
    sinkMessages (Destroyed sampleRemote) = [] :=
  ⟨by decide, tagged_actor_emits_nothing sampleCoreDS sampleRemote 1 (by decide)⟩

/-- C2: `Destroyed` on an actor without the tag "coreDSCreated" sends exactly one
message, `removeObject` keyed by the actor's name string, and nothing else; with the tag
it sends nothing.  So a removal is sent if and only if the actor is locally created, and
never more than once per destruction. -/
theorem Destroyed_removes_local_only (a : Character) :
    (a.ActorHasTag "coreDSCreated" = false →
      Destroyed a = [Effect.removeObject a.Name] ∧
      sinkMessages (Destroyed a) = [Effect.removeObject a.Name]) ∧
    ((∃ key, Effect.removeObject key ∈ sinkMessages (Destroyed a)) ↔
      a.ActorHasTag "coreDSCreated" = false) ∧
    (sinkMessages (Destroyed a)).length ≤ 1 := by
  cases h : a.ActorHasTag "coreDSCreated" <;>
    simp [Destroyed, h, sinkMessages, Effect.isSink, TCHAR_TO_UTF8]

/-- Witness of C2 at the locally created sample actor. -/
theorem Destroyed_removes_local_only_witness :
    sampleLocal.ActorHasTag "coreDSCreated" = false ∧
    Destroyed sampleLocal = [Effect.removeObject "Gun_1"] ∧
    sinkMessages (Destroyed sampleLocal) = [Effect.removeObject "Gun_1"] :=
  ⟨by decide, (Destroyed_removes_local_only sampleLocal).1 (by decide)⟩

/-! ## The periodic update -/

/-- C3: when a component of the actor location or of the camera rotation is not finite
(NaN or an infinity), `TickActor` makes no coordinate conversion and sends nothing to the
sink: the whole trace is the call of the base class. -/
theorem TickActor_skips_non_finite_pose (E : CoreDS) (a : Character) (DeltaTime : Scalar)
    (h : a.ActorLocation.X.isFinite = false ∨ a.ActorLocation.Y.isFinite = false ∨
      a.ActorLocation.Z.isFinite = false ∨ a.CameraRotation.Pitch.isFinite = false ∨
      a.CameraRotation.Yaw.isFinite = false ∨ a.CameraRotation.Roll.isFinite = false) :
    TickActor E a DeltaTime = [Effect.SuperTickActor DeltaTime] ∧
    sinkMessages (TickActor E a DeltaTime) = [] ∧
    conversionCalls (TickActor E a DeltaTime) = [] := by
  have key : TickActor E a DeltaTime = [Effect.SuperTickActor DeltaTime] := by
    unfold TickActor
    cases ht : a.ActorHasTag "coreDSCreated"
    · have hn : (!a.ActorLocation.ContainsNaN && !a.CameraRotation.ContainsNaN) = false := by
        rcases h with h | h | h | h | h | h <;>
          simp [FVector.ContainsNaN, FRotator.ContainsNaN, h]
      simp [hn]
    · simp
  rw [key]
  simp [sinkMessages, conversionCalls, Effect.isSink, Effect.isConversion]

/-- Witness of C3: one locally created actor with a NaN in its location, and one with an
infinite camera yaw. -/
theorem TickActor_skips_non_finite_pose_witness :
    sampleBare.ActorLocation.X = Scalar.nan ∧
    sinkMessages (TickActor sampleCoreDS sampleBare 1) = [] ∧
    sinkMessages (TickActor sampleCoreDS
      { sampleLocal with CameraRotation := ⟨0, Scalar.posInf, 0⟩ } 1) = [] :=
  ⟨rfl,
   (TickActor_skips_non_finite_pose sampleCoreDS sampleBare 1 (Or.inl rfl)).2.1,
   (TickActor_skips_non_finite_pose sampleCoreDS
      { sampleLocal with CameraRotation := ⟨0, Scalar.posInf, 0⟩ } 1
      (Or.inr (Or.inr (Or.inr (Or.inr (Or.inl rfl)))))).2.1⟩

/-- C4: for an actor without the tag whose location and camera rotation pass the
`ContainsNaN` guard, `TickActor` sends exactly one message,
`updateObject(name, "Gun", payload)`, whose payload is the six pairs `Location.x`,
`Location.y`, `Location.z`, `Orientation.pitch`, `Orientation.yaw`, `Orientation.roll`
in this order, with values x, y, z, psi, phi, theta, where `(x, y, z)` is what `EnuToEcef`
returned and `(psi, theta, phi)` what `HeadingPitchRollToEuler` returned. -/
theorem TickActor_sends_one_update (E : CoreDS) (a : Character) (DeltaTime : Scalar)
    (x y z psi theta phi : Scalar)
    (htag : a.ActorHasTag "coreDSCreated" = false)
    (hloc : a.ActorLocation.ContainsNaN = false)
    (hrot : a.CameraRotation.ContainsNaN = false)
    (hxyz : E.EnuToEcef (a.ActorLocation.X * 100) (a.ActorLocation.Y * 100)
      (a.ActorLocation.Z * 100) E.Settings.ReferenceLatitude E.Settings.ReferenceLongitude
      E.Settings.ReferenceAltitude = (x, y, z))
    (heul : E.HeadingPitchRollToEuler (E.Settings.ReferenceLatitude * E.DegToRad)
      (E.Settings.ReferenceLongitude * E.DegToRad) (a.CameraRotation.Yaw * E.DegToRad)
      (a.CameraRotation.Pitch * E.DegToRad) (a.CameraRotation.Roll * E.DegToRad)
      = (psi, theta, phi)) :
    sinkMessages (TickActor E a DeltaTime) =
      [Effect.updateObject a.Name "Gun"
        [⟨"Location.x", x⟩, ⟨"Location.y", y⟩, ⟨"Location.z", z⟩,
         ⟨"Orientation.pitch", psi⟩, ⟨"Orientation.yaw", phi⟩,
         ⟨"Orientation.roll", theta⟩]] := by
  simp [TickActor, htag, hloc, hrot, hxyz, heul, sinkMessages, Effect.isSink]

/-- Witness of C4 at the locally created sample actor. -/
theorem TickActor_sends_one_update_witness :
    sinkMessages (TickActor sampleCoreDS sampleLocal 1) =
      [Effect.updateObject "Gun_1" "Gun"
        [⟨"Location.x", 1000 * 100⟩, ⟨"Location.y", 0 * 100⟩, ⟨"Location.z", 0 * 100⟩,
         ⟨"Orientation.pitch", 90 * sampleCoreDS.DegToRad⟩,
         ⟨"Orientation.yaw", 0 * sampleCoreDS.DegToRad⟩,
         ⟨"Orientation.roll", 10 * sampleCoreDS.DegToRad⟩]] :=
  TickActor_sends_one_update sampleCoreDS sampleLocal 1 _ _ _ _ _ _
    (by decide) (by decide) (by decide) rfl rfl

/-- C5 fails as stated.  At the locally created sample actor (finite pose) the stand-in
`HeadingPitchRollToEuler` returns three different values; the payload labels the first one
`Orientation.pitch`, the third one `Orientation.yaw` and the second one
`Orientation.roll`, so the second return value is not the value of `Orientation.yaw`. -/
theorem yaw_is_not_the_second_output :
    sampleLocal.ActorHasTag "coreDSCreated" = false ∧
    sampleLocal.ActorLocation.ContainsNaN = false ∧
    sampleLocal.CameraRotation.ContainsNaN = false ∧
    sampleCoreDS.HeadingPitchRollToEuler
        (sampleCoreDS.Settings.ReferenceLatitude * sampleCoreDS.DegToRad)
        (sampleCoreDS.Settings.ReferenceLongitude * sampleCoreDS.DegToRad)
        (sampleLocal.CameraRotation.Yaw * sampleCoreDS.DegToRad)
        (sampleLocal.CameraRotation.Pitch * sampleCoreDS.DegToRad)
        (sampleLocal.CameraRotation.Roll * sampleCoreDS.DegToRad)
      = (90 * sampleCoreDS.DegToRad, 10 * sampleCoreDS.DegToRad, 0 * sampleCoreDS.DegToRad) ∧
    sinkMessages (TickActor sampleCoreDS sampleLocal 1) =
      [Effect.updateObject "Gun_1" "Gun"
        [⟨"Location.x", 100000⟩, ⟨"Location.y", 0⟩, ⟨"Location.z", 0⟩,
         ⟨"Orientation.pitch", 90 * sampleCoreDS.DegToRad⟩,
         ⟨"Orientation.yaw", 0 * sampleCoreDS.DegToRad⟩,
         ⟨"Orientation.roll", 10 * sampleCoreDS.DegToRad⟩]] ∧
    sinkMessages (TickActor sampleCoreDS sampleLocal 1) ≠
      [Effect.updateObject "Gun_1" "Gun"
        [⟨"Location.x", 100000⟩, ⟨"Location.y", 0⟩, ⟨"Location.z", 0⟩,
         ⟨"Orientation.pitch", 90 * sampleCoreDS.DegToRad⟩,
         ⟨"Orientation.yaw", 10 * sampleCoreDS.DegToRad⟩,
         ⟨"Orientation.roll", 0 * sampleCoreDS.DegToRad⟩]] ∧
    (10 * sampleCoreDS.DegToRad : Scalar) ≠ 0 * sampleCoreDS.DegToRad := by
  have hne : (10 * sampleCoreDS.DegToRad : Scalar) ≠ 0 * sampleCoreDS.DegToRad := by
    simp [sampleCoreDS, Scalar.ofNat_eq_finite, Scalar.finite_mul_finite]
  refine ⟨by decide, by decide, by decide, rfl, ?_, ?_, hne⟩
  · rw [TickActor_sampleLocal]
    simp [sinkMessages, Effect.isSink]
  · rw [TickActor_sampleLocal]
    simp only [sinkMessages, List.filter, Effect.isSink]
    intro h
    injection h with h _
    injection h with _ _ h
    injection h with _ h
    injection h with _ h
    injection h with _ h
    injection h with _ h
    injection h with h _
    injection h with _ h
    exact hne h.symm

/-- C5, amended: for an actor without the tag whose pose passes the `ContainsNaN` guard,
the update payload carries the first return value of `HeadingPitchRollToEuler` under
`Orientation.pitch`, the third under `Orientation.yaw` and the second under
`Orientation.roll`. -/
theorem orientation_labels_by_output_position (E : CoreDS) (a : Character)
    (DeltaTime : Scalar) (first second third : Scalar)
    (htag : a.ActorHasTag "coreDSCreated" = false)
    (hloc : a.ActorLocation.ContainsNaN = false)
    (hrot : a.CameraRotation.ContainsNaN = false)
    (hout : E.HeadingPitchRollToEuler (E.Settings.ReferenceLatitude * E.DegToRad)
      (E.Settings.ReferenceLongitude * E.DegToRad) (a.CameraRotation.Yaw * E.DegToRad)
      (a.CameraRotation.Pitch * E.DegToRad) (a.CameraRotation.Roll * E.DegToRad)
      = (first, second, third)) :
    ∃ location : List FKeyVariantPair,
      location.map FKeyVariantPair.key = ["Location.x", "Location.y", "Location.z"] ∧
      sinkMessages (TickActor E a DeltaTime) =
        [Effect.updateObject a.Name "Gun"
          (location ++ [⟨"Orientation.pitch", first⟩, ⟨"Orientation.yaw", third⟩,
            ⟨"Orientation.roll", second⟩])] := by
  rcases hxyz : E.EnuToEcef (a.ActorLocation.X * 100) (a.ActorLocation.Y * 100)
      (a.ActorLocation.Z * 100) E.Settings.ReferenceLatitude E.Settings.ReferenceLongitude
      E.Settings.ReferenceAltitude with ⟨x, y, z⟩
  refine ⟨[⟨"Location.x", x⟩, ⟨"Location.y", y⟩, ⟨"Location.z", z⟩], rfl, ?_⟩
  simp [TickActor, htag, hloc, hrot, hxyz, hout, sinkMessages, Effect.isSink]

/-- Witness of the amended C5 at the locally created sample actor. -/
theorem orientation_labels_by_output_position_witness :
    ∃ location : List FKeyVariantPair,
      location.map FKeyVariantPair.key = ["Location.x", "Location.y", "Location.z"] ∧
      sinkMessages (TickActor sampleCoreDS sampleLocal 1) =
        [Effect.updateObject "Gun_1" "Gun"
          (location ++ [⟨"Orientation.pitch", 90 * sampleCoreDS.DegToRad⟩,
            ⟨"Orientation.yaw", 0 * sampleCoreDS.DegToRad⟩,
            ⟨"Orientation.roll", 10 * sampleCoreDS.DegToRad⟩])] :=
  orientation_labels_by_output_position sampleCoreDS sampleLocal 1 _ _ _
    (by decide) (by decide) (by decide) rfl

/-! ## The fire event -/

/-- The trace of `OnFire` at the locally created sample actor. -/
theorem OnFire_sampleLocal :
    OnFire sampleCoreDS sampleLocal =
      [Effect.SpawnActor "Projectile" ⟨1000, 0, 0⟩ ⟨0, 0, 0⟩,
       Effect.PlaySoundAtLocation "Sound" ⟨1000, 0, 0⟩,
       Effect.Montage_Play "Montage" 1,
       Effect.EnuToEcef 100000 0 0 34 (Scalar.finite (-118)) 100,
       Effect.sendMessage "ShotFired"
        [⟨"Location.x", 100000⟩, ⟨"Location.y", 0⟩, ⟨"Location.z", 0⟩]] := by
  simp [OnFire, firingLocation, sampleLocal, sampleCoreDS, Character.ActorHasTag,
    Scalar.ofNat_eq_finite, Scalar.finite_mul_finite, Scalar.finite_add_finite,
    FVector.add_def]
  norm_num

/-- C6: for an actor without the tag, `OnFire` sends exactly one message to the sink,
`sendMessage("ShotFired", payload)`; the payload is the three pairs `Location.x`,
`Location.y`, `Location.z` in this order, and their values are what `EnuToEcef` returned
for the firing position `P` (muzzle location, or actor location without a muzzle
component, plus the control-rotated gun offset; each coordinate passed times 100) and the
configured reference latitude, longitude and altitude. -/
theorem OnFire_sends_one_ShotFired (E : CoreDS) (a : Character) (P : FVector)
    (x y z : Scalar)
    (htag : a.ActorHasTag "coreDSCreated" = false)
    (hP : P = a.FP_MuzzleLocation.getD a.ActorLocation +
      E.RotateVector a.ControlRotation a.GunOffset)
    (hxyz : E.EnuToEcef (P.X * 100) (P.Y * 100) (P.Z * 100) E.Settings.ReferenceLatitude
      E.Settings.ReferenceLongitude E.Settings.ReferenceAltitude = (x, y, z)) :
    sinkMessages (OnFire E a) =
      [Effect.sendMessage "ShotFired"
        [⟨"Location.x", x⟩, ⟨"Location.y", y⟩, ⟨"Location.z", z⟩]] := by
  have hfire : firingLocation E a = P := by
    rw [hP]; unfold firingLocation; cases a.FP_MuzzleLocation <;> rfl
  obtain ⟨pre, hsink, -, htrace⟩ := OnFire_untagged_trace E a htag
  rw [htrace, hfire, hxyz]
  simp [sinkMessages, Effect.isSink] at hsink ⊢
  exact hsink

/-- Witness of C6 at the locally created sample actor, whose muzzle is at (1000, 0, 0). -/
theorem OnFire_sends_one_ShotFired_witness :
    sinkMessages (OnFire sampleCoreDS sampleLocal) =
      [Effect.sendMessage "ShotFired"
        [⟨"Location.x", (⟨1000, 0, 0⟩ + ⟨0, 0, 0⟩ : FVector).X * 100⟩,
         ⟨"Location.y", (⟨1000, 0, 0⟩ + ⟨0, 0, 0⟩ : FVector).Y * 100⟩,
         ⟨"Location.z", (⟨1000, 0, 0⟩ + ⟨0, 0, 0⟩ : FVector).Z * 100⟩]] :=
  OnFire_sends_one_ShotFired sampleCoreDS sampleLocal
    ((⟨1000, 0, 0⟩ : FVector) + (⟨0, 0, 0⟩ : FVector)) _ _ _ (by decide) rfl rfl

/-- C10: for an actor without the tag, `OnFire` sends the `ShotFired` message whatever
the other fields are, and its payload is exactly what `EnuToEcef` returned for the firing
position, finite or not: nothing is tested between the conversion and the send.  With no
projectile to spawn (no projectile class, or no world), no sound and no animation, the
conversion call and the message are the whole trace.  `TickActor`, by contrast, sends
nothing when the actor location does not pass the `ContainsNaN` guard. -/
theorem OnFire_has_no_other_guard (E : CoreDS) (a : Character) (DeltaTime : Scalar)
    (x y z : Scalar)
    (htag : a.ActorHasTag "coreDSCreated" = false)
    (hxyz : E.EnuToEcef ((firingLocation E a).X * 100) ((firingLocation E a).Y * 100)
      ((firingLocation E a).Z * 100) E.Settings.ReferenceLatitude
      E.Settings.ReferenceLongitude E.Settings.ReferenceAltitude = (x, y, z)) :
    sinkMessages (OnFire E a) =
      [Effect.sendMessage "ShotFired"
        [⟨"Location.x", x⟩, ⟨"Location.y", y⟩, ⟨"Location.z", z⟩]] ∧
    (a.ProjectileClass = none ∨ a.World = false → a.FireSound = none →
      a.FireAnimation = none →
      OnFire E a =
        [Effect.EnuToEcef ((firingLocation E a).X * 100) ((firingLocation E a).Y * 100)
          ((firingLocation E a).Z * 100) E.Settings.ReferenceLatitude
          E.Settings.ReferenceLongitude E.Settings.ReferenceAltitude,
         Effect.sendMessage "ShotFired"
          [⟨"Location.x", x⟩, ⟨"Location.y", y⟩, ⟨"Location.z", z⟩]]) ∧
    (a.ActorLocation.ContainsNaN = true → sinkMessages (TickActor E a DeltaTime) = []) := by
  refine ⟨?_, ?_, ?_⟩
  · obtain ⟨pre, hsink, -, htrace⟩ := OnFire_untagged_trace E a htag
    rw [htrace, hxyz]
    simp [sinkMessages, Effect.isSink] at hsink ⊢
    exact hsink
  · intro hspawn hsound hanim
    rcases hspawn with hpc | hw
    · simp [OnFire, htag, hpc, hsound, hanim, hxyz]
    · cases hpc : a.ProjectileClass <;> simp [OnFire, htag, hpc, hw, hsound, hanim, hxyz]
  · intro hnan
    simp [TickActor, htag, hnan, sinkMessages, Effect.isSink]

/-- Witness of C10: a locally created actor with no projectile class, no world, no sound,
no animation and a NaN in its firing position.  `OnFire` converts that position and sends
`ShotFired` with the NaN in `Location.x`; the tick of the same actor sends nothing. -/
theorem OnFire_has_no_other_guard_witness :
    sampleBare.ActorHasTag "coreDSCreated" = false ∧
    sampleBare.ProjectileClass = none ∧ sampleBare.World = false ∧
    sampleBare.FireSound = none ∧ sampleBare.FireAnimation = none ∧
    (firingLocation sampleCoreDS sampleBare).X = Scalar.nan ∧
    (firingLocation sampleCoreDS sampleBare).ContainsNaN = true ∧
    sinkMessages (OnFire sampleCoreDS sampleBare) =
      [Effect.sendMessage "ShotFired"
        [⟨"Location.x", Scalar.nan⟩, ⟨"Location.y", 0⟩, ⟨"Location.z", 0⟩]] ∧
    OnFire sampleCoreDS sampleBare =
      [Effect.EnuToEcef ((firingLocation sampleCoreDS sampleBare).X * 100)
        ((firingLocation sampleCoreDS sampleBare).Y * 100)
        ((firingLocation sampleCoreDS sampleBare).Z * 100) 34 (Scalar.finite (-118)) 100,
       Effect.sendMessage "ShotFired"
        [⟨"Location.x", Scalar.nan⟩, ⟨"Location.y", 0⟩, ⟨"Location.z", 0⟩]] ∧
    sinkMessages (TickActor sampleCoreDS sampleBare 1) = [] :=
  have h := OnFire_has_no_other_guard sampleCoreDS sampleBare 1 Scalar.nan 0 0 (by decide)
    (by simp [firingLocation, sampleBare, sampleLocal, sampleCoreDS, FVector.add_def,
          Scalar.ofNat_eq_finite, Scalar.finite_mul_finite, Scalar.finite_add_finite]
        rfl)
  ⟨by decide, rfl, rfl, rfl, rfl, rfl, by decide, h.1, h.2.1 (Or.inl rfl) rfl rfl,
   h.2.2 (by decide)⟩

/-! ## Arguments of the coordinate conversions -/

/-- C7 fails as stated.  The locally created sample actor stands at (1000, 0, 0) and
fires from (1000, 0, 0); in both `OnFire` and `TickActor` the offsets given to
`EnuToEcef` are (100000, 0, 0), and no call with the offsets (1000/100, 0/100, 0/100),
that is (10, 0, 0), is made. -/
theorem offsets_are_not_divided_by_100 :
    sampleLocal.ActorHasTag "coreDSCreated" = false ∧
    sampleLocal.ActorLocation = ⟨1000, 0, 0⟩ ∧
    firingLocation sampleCoreDS sampleLocal = ⟨1000, 0, 0⟩ ∧
    ((1000 : Scalar) / 100 = 10 ∧ (0 : Scalar) / 100 = 0) ∧
    conversionCalls (OnFire sampleCoreDS sampleLocal) =
      [Effect.EnuToEcef 100000 0 0 34 (Scalar.finite (-118)) 100] ∧
    conversionCalls (TickActor sampleCoreDS sampleLocal 1) =
      [Effect.EnuToEcef 100000 0 0 34 (Scalar.finite (-118)) 100,
       Effect.HeadingPitchRollToEuler (34 * sampleCoreDS.DegToRad)
        (Scalar.finite (-118) * sampleCoreDS.DegToRad) (90 * sampleCoreDS.DegToRad)
        (10 * sampleCoreDS.DegToRad) (0 * sampleCoreDS.DegToRad)] ∧
    Effect.EnuToEcef (1000 / 100) (0 / 100) (0 / 100) 34 (Scalar.finite (-118)) 100
      ∉ OnFire sampleCoreDS sampleLocal ∧
    Effect.EnuToEcef (1000 / 100) (0 / 100) (0 / 100) 34 (Scalar.finite (-118)) 100
      ∉ TickActor sampleCoreDS sampleLocal 1 := by
  have h1000 : (1000 : Scalar) / 100 = 10 := by
    rw [Scalar.ofNat_eq_finite, Scalar.ofNat_eq_finite, Scalar.ofNat_eq_finite,
      Scalar.finite_div_finite _ _ (by norm_num)]
    norm_num
  have h0 : (0 : Scalar) / 100 = 0 := by
    rw [Scalar.ofNat_eq_finite, Scalar.ofNat_eq_finite,
      Scalar.finite_div_finite _ _ (by norm_num)]
    norm_num
  have hne : (10 : Scalar) ≠ 100000 := by
    rw [Scalar.ofNat_eq_finite, Scalar.ofNat_eq_finite]
    intro h
    injection h with h
    norm_num at h
  refine ⟨by decide, rfl, ?_, ⟨h1000, h0⟩, ?_, ?_, ?_, ?_⟩
  · simp [firingLocation, sampleLocal, sampleCoreDS, FVector.add_def,
      Scalar.ofNat_eq_finite, Scalar.finite_add_finite]
  · rw [OnFire_sampleLocal]
    simp [conversionCalls, Effect.isConversion]
  · rw [TickActor_sampleLocal]
    simp [conversionCalls, Effect.isConversion]
  · rw [OnFire_sampleLocal, h1000, h0]
    simp [hne]
  · rw [TickActor_sampleLocal, h1000, h0]
    simp [hne]

/-- C7, amended: for an actor without the tag, the only conversion call of `OnFire` is
`EnuToEcef` with the firing position's coordinates each multiplied by 100 as offsets; and
when the pose passes the `ContainsNaN` guard, the `EnuToEcef` calls of `TickActor` are
exactly the one with the actor location's coordinates each multiplied by 100 as offsets
(and the configured reference latitude, longitude and altitude). -/
theorem EnuToEcef_offsets_are_multiplied_by_100 (E : CoreDS) (a : Character)
    (DeltaTime : Scalar) (htag : a.ActorHasTag "coreDSCreated" = false) :
    conversionCalls (OnFire E a) =
      [Effect.EnuToEcef ((firingLocation E a).X * 100) ((firingLocation E a).Y * 100)
        ((firingLocation E a).Z * 100) E.Settings.ReferenceLatitude
        E.Settings.ReferenceLongitude E.Settings.ReferenceAltitude] ∧
    (a.ActorLocation.ContainsNaN = false → a.CameraRotation.ContainsNaN = false →
      ∀ e n u lat lon alt : Scalar,
        Effect.EnuToEcef e n u lat lon alt ∈ TickActor E a DeltaTime ↔
          e = a.ActorLocation.X * 100 ∧ n = a.ActorLocation.Y * 100 ∧
          u = a.ActorLocation.Z * 100 ∧ lat = E.Settings.ReferenceLatitude ∧
          lon = E.Settings.ReferenceLongitude ∧ alt = E.Settings.ReferenceAltitude) := by
  constructor
  · obtain ⟨pre, -, hconv, htrace⟩ := OnFire_untagged_trace E a htag
    rw [htrace]
    simp [conversionCalls, Effect.isConversion] at hconv ⊢
    exact hconv
  · intro hloc hrot e n u lat lon alt
    rcases hxyz : E.EnuToEcef (a.ActorLocation.X * 100) (a.ActorLocation.Y * 100)
      (a.ActorLocation.Z * 100) E.Settings.ReferenceLatitude E.Settings.ReferenceLongitude
      E.Settings.ReferenceAltitude with ⟨x, y, z⟩
    rcases heul : E.HeadingPitchRollToEuler (E.Settings.ReferenceLatitude * E.DegToRad)
      (E.Settings.ReferenceLongitude * E.DegToRad) (a.CameraRotation.Yaw * E.DegToRad)
      (a.CameraRotation.Pitch * E.DegToRad) (a.CameraRotation.Roll * E.DegToRad)
      with ⟨psi, theta, phi⟩
    rw [TickActor_untagged_trace E a DeltaTime htag hloc hrot x y z psi theta phi hxyz heul]
    simp

/-- Witness of the amended C7 at the locally created sample actor. -/
theorem EnuToEcef_offsets_are_multiplied_by_100_witness :
    conversionCalls (OnFire sampleCoreDS sampleLocal) =
      [Effect.EnuToEcef ((firingLocation sampleCoreDS sampleLocal).X * 100)
        ((firingLocation sampleCoreDS sampleLocal).Y * 100)
        ((firingLocation sampleCoreDS sampleLocal).Z * 100) 34 (Scalar.finite (-118)) 100] ∧
    Effect.EnuToEcef (1000 * 100) (0 * 100) (0 * 100) 34 (Scalar.finite (-118)) 100
      ∈ TickActor sampleCoreDS sampleLocal 1 :=
  ⟨(EnuToEcef_offsets_are_multiplied_by_100 sampleCoreDS sampleLocal 1 (by decide)).1,
   ((EnuToEcef_offsets_are_multiplied_by_100 sampleCoreDS sampleLocal 1 (by decide)).2
      (by decide) (by decide) _ _ _ _ _ _).2 ⟨rfl, rfl, rfl, rfl, rfl, rfl⟩⟩

/-- C8: for an actor without the tag whose pose passes the `ContainsNaN` guard, the
conversion calls of `TickActor` are, in order, `EnuToEcef` with the reference latitude
and longitude in degrees as configured and the reference altitude unchanged, then
`HeadingPitchRollToEuler` with (reference latitude, reference longitude, camera yaw,
camera pitch, camera roll), each multiplied by `DegToRad`. -/
theorem TickActor_conversion_arguments (E : CoreDS) (a : Character) (DeltaTime : Scalar)
    (htag : a.ActorHasTag "coreDSCreated" = false)
    (hloc : a.ActorLocation.ContainsNaN = false)
    (hrot : a.CameraRotation.ContainsNaN = false) :
    conversionCalls (TickActor E a DeltaTime) =
      [Effect.EnuToEcef (a.ActorLocation.X * 100) (a.ActorLocation.Y * 100)
        (a.ActorLocation.Z * 100) E.Settings.ReferenceLatitude E.Settings.ReferenceLongitude
        E.Settings.ReferenceAltitude,
       Effect.HeadingPitchRollToEuler (E.Settings.ReferenceLatitude * E.DegToRad)
        (E.Settings.ReferenceLongitude * E.DegToRad) (a.CameraRotation.Yaw * E.DegToRad)
        (a.CameraRotation.Pitch * E.DegToRad) (a.CameraRotation.Roll * E.DegToRad)] := by
  rcases hxyz : E.EnuToEcef (a.ActorLocation.X * 100) (a.ActorLocation.Y * 100)
    (a.ActorLocation.Z * 100) E.Settings.ReferenceLatitude E.Settings.ReferenceLongitude
    E.Settings.ReferenceAltitude with ⟨x, y, z⟩
  rcases heul : E.HeadingPitchRollToEuler (E.Settings.ReferenceLatitude * E.DegToRad)
    (E.Settings.ReferenceLongitude * E.DegToRad) (a.CameraRotation.Yaw * E.DegToRad)
    (a.CameraRotation.Pitch * E.DegToRad) (a.CameraRotation.Roll * E.DegToRad)
    with ⟨psi, theta, phi⟩
  rw [TickActor_untagged_trace E a DeltaTime htag hloc hrot x y z psi theta phi hxyz heul]
  simp [conversionCalls, Effect.isConversion]

/-- Witness of C8 at the locally created sample actor (camera pitch 10, yaw 90, roll 0;
reference origin 34, -118, 100). -/
theorem TickActor_conversion_arguments_witness :
    conversionCalls (TickActor sampleCoreDS sampleLocal 1) =
      [Effect.EnuToEcef (1000 * 100) (0 * 100) (0 * 100) 34 (Scalar.finite (-118)) 100,
       Effect.HeadingPitchRollToEuler (34 * sampleCoreDS.DegToRad)
        (Scalar.finite (-118) * sampleCoreDS.DegToRad) (90 * sampleCoreDS.DegToRad)
        (10 * sampleCoreDS.DegToRad) (0 * sampleCoreDS.DegToRad)] :=
  TickActor_conversion_arguments sampleCoreDS sampleLocal 1 (by decide) (by decide) (by decide)

/-! ## The position conversion of the specification is affine -/

/-- C9: with the reference origin fixed, the position conversion described by the
specification is affine in the local offset: for all offsets a and b,
`EnuToEcef(origin, a+b) - EnuToEcef(origin, a) = EnuToEcef(origin, b) - EnuToEcef(origin, 0)`,
component by component.  In the exact arithmetic of a field this is an equality, so it
holds within every tolerance. -/
theorem EnuToEcefSpec_affine {K : Type} [Field K] (sin cos sqrt : K → K)
    (degToRad a e2 refLat refLon refAlt : K) (a1 a2 a3 b1 b2 b3 : K) :
    EnuToEcefSpec sin cos sqrt degToRad a e2 (a1 + b1) (a2 + b2) (a3 + b3) refLat refLon refAlt
        - EnuToEcefSpec sin cos sqrt degToRad a e2 a1 a2 a3 refLat refLon refAlt
      = EnuToEcefSpec sin cos sqrt degToRad a e2 b1 b2 b3 refLat refLon refAlt
        - EnuToEcefSpec sin cos sqrt degToRad a e2 0 0 0 refLat refLon refAlt := by
  simp only [EnuToEcefSpec, Prod.mk_sub_mk, Prod.mk.injEq]
  refine ⟨?_, ?_, ?_⟩ <;> ring

end CoreUnreal
